import Mathlib

/-!
Shallow embedding of the sale-transaction and price-update core of the
Backend-donCharo repository (FastAPI + SQLAlchemy point-of-sale back office).

Embedded source:
  * src/app/models.py   — ORM rows Producto, Venta, ItemVenta.
  * src/app/schemas.py  — request schemas ItemVentaCreate, VentaCreate,
    ProductoUpdate.
  * src/app/routes/ventas.py    — crear_venta (createSale).
  * src/app/routes/productos.py — actualizar_producto (admin update) and
    actualizar_precios_masivo (bulkUpdatePrices).

Modelling conventions: Python int columns become ℤ, float prices become ℚ
(the arithmetic performed is the same expression tree, evaluated exactly),
Optional[str] becomes Option String.  The SQLAlchemy session is modelled as an
explicit database value threaded through the computation; db.rollback()
followed by raise is modelled by returning an error while the caller keeps the
pre-call committed state, and db.commit() by returning the mutated state.
A query of the form query(...).filter(...).first() is List.find?; mutating the
fetched ORM object is updating the first matching row (the session's identity
map keys rows by primary key, so a later first() in the same session observes
the mutation).  Python's round(x, 2) (round half to even on the second decimal)
is roundHalfEven below, applied to 100·x exactly.
-/

namespace DonCharo

/-- Row of the productos table, src/app/models.py lines 25-41: id, nombre,
precio_costo, precio_venta, stock, stock_minimo, categoria, codigo_barras,
activo (descripcion and the timestamps are never read by the embedded routes
and are omitted).  The field margen_porcentaje is modelled from the spec: the
column is absent from src/app/models.py, but src/app/routes/productos.py reads
producto.margen_porcentaje (lines 202, 245, 319) as a stored per-product
margin percentage, and the spec (§3) describes a per-product margin percentage
from which the sale price is derived; we model it as a stored field of the
row. -/
structure Producto where
  id : ℤ
  nombre : String
  precio_costo : ℚ
  precio_venta : ℚ
  stock : ℤ
  stock_minimo : ℤ
  categoria : Option String
  codigo_barras : Option String
  activo : Bool
  margen_porcentaje : ℚ
  deriving Repr, DecidableEq

/-- Row of the ventas table, src/app/models.py lines 42-53 (fecha omitted:
wall-clock time is outside the embedding). -/
structure Venta where
  id : ℤ
  usuario_id : ℤ
  total : ℚ
  metodo_pago : String
  observaciones : Option String
  deriving Repr, DecidableEq

/-- Row of the items_venta table, src/app/models.py lines 55-66 (the surrogate
id column is omitted; rows are identified positionally in the store). -/
structure ItemVenta where
  venta_id : ℤ
  producto_id : ℤ
  cantidad : ℤ
  precio_unitario : ℚ
  subtotal : ℚ
  deriving Repr, DecidableEq

/-- Committed relational store the embedded routes operate on: the three
tables they touch, plus the generator for ventas.id (db.flush() materialises
db_venta.id from it). -/
structure DB where
  productos : List Producto
  ventas : List Venta
  items_venta : List ItemVenta
  next_venta_id : ℤ
  deriving Repr, DecidableEq

/-- Request schema ItemVentaCreate, src/app/schemas.py lines 86-89: plain
producto_id : int, cantidad : int, precio_unitario : float, with no range
constraint on any field. -/
structure ItemVentaCreate where
  producto_id : ℤ
  cantidad : ℤ
  precio_unitario : ℚ
  deriving Repr, DecidableEq

/-- Request schema VentaCreate, src/app/schemas.py lines 101-104. -/
structure VentaCreate where
  items : List ItemVentaCreate
  metodo_pago : String
  observaciones : Option String
  deriving Repr, DecidableEq

/-- Request schema ProductoUpdate, src/app/schemas.py lines 57-63: every field
optional, none = not provided (pydantic's exclude_unset).  There is no bound
on stock and no margen_porcentaje field. -/
structure ProductoUpdate where
  nombre : Option String := none
  precio_costo : Option ℚ := none
  precio_venta : Option ℚ := none
  stock : Option ℤ := none
  categoria : Option String := none
  codigo_barras : Option String := none
  deriving Repr, DecidableEq

/-- Request schema ActualizacionPreciosMasivaRequest.  Modelled from the spec:
this schema is referenced by src/app/routes/productos.py line 269 but is
absent from src/app/schemas.py; the spec (§4.2) gives the contract
bulkUpdatePrices(productIds, percentageIncrease), and the route reads exactly
the two fields producto_ids (a list of ids) and porcentaje_aumento (a float
percentage). -/
structure ActualizacionPreciosMasivaRequest where
  producto_ids : List ℤ
  porcentaje_aumento : ℚ
  deriving Repr, DecidableEq

/-- Errors raised by crear_venta, src/app/routes/ventas.py lines 34 and 38:
404 "Producto {producto_id} no encontrado" and 400 "Stock insuficiente para
{nombre}". -/
inductive VentaError where
  | productoNoEncontrado (producto_id : ℤ)
  | stockInsuficiente (nombre : String)
  deriving Repr, DecidableEq

/-- Errors raised by actualizar_producto, src/app/routes/productos.py lines
225 and 234: 404 "Producto no encontrado" and 400 "Ya existe otro producto con
ese código de barras". -/
inductive ProductoUpdateError where
  | productoNoEncontrado
  | codigoBarrasDuplicado
  deriving Repr, DecidableEq

/-- Validation errors raised by actualizar_precios_masivo,
src/app/routes/productos.py lines 278-295, all HTTP 400: percentage below
-50, percentage above 200, empty product selection.  (The catch-all 500
handler at lines 333-338 re-raises unexpected store exceptions, which do not
arise in the embedding.) -/
inductive PreciosMasivosError where
  | porcentajeMenorA50
  | porcentajeMayorA200
  | sinProductos
  deriving Repr, DecidableEq

/-- Python's round(x, 2) on an exact value: the integer number of hundredths,
rounding half to even (banker's rounding), i.e. round(100·x) half to even. -/
def roundHalfEven (q : ℚ) : ℤ :=
  if q - (⌊q⌋ : ℚ) < 1/2 then ⌊q⌋
  else if 1/2 < q - (⌊q⌋ : ℚ) then ⌊q⌋ + 1
  else if ⌊q⌋ % 2 = 0 then ⌊q⌋ else ⌊q⌋ + 1

/-- Exact model of Python's round(x, 2): round 100·x half to even, divide by
100. -/
def round2 (q : ℚ) : ℚ := (roundHalfEven (q * 100) : ℚ) / 100

/-- First row matching a boolean row filter:
query(Producto).filter(...).first(). -/
def findFirst (pred : Producto → Bool) (productos : List Producto) :
    Option Producto :=
  productos.find? pred

/-- Mutation of the ORM object returned by first(): the first row matching the
filter is replaced by f of itself; every other row is untouched. -/
def updateFirst (pred : Producto → Bool) (f : Producto → Producto) :
    List Producto → List Producto
  | [] => []
  | p :: ps =>
    if pred p then f p :: ps else p :: updateFirst pred f ps

/-- Row filter of crear_venta's product lookup, src/app/routes/ventas.py line
31: Producto.id == producto_id (note: no condition on activo). -/
def porId (pid : ℤ) : Producto → Bool :=
  fun p => p.id == pid

/-- Row filter of actualizar_precios_masivo's product lookup,
src/app/routes/productos.py lines 301-304: Producto.id == producto_id AND
Producto.activo == True. -/
def porIdActivo (pid : ℤ) : Producto → Bool :=
  fun p => p.id == pid && p.activo

/-- Total of a sale request, src/app/routes/ventas.py line 17:
sum(item.cantidad * item.precio_unitario for item in venta.items). -/
def totalVenta (items : List ItemVentaCreate) : ℚ :=
  (items.map (fun it => (it.cantidad : ℚ) * it.precio_unitario)).sum

/-- Row inserted into items_venta for one request line,
src/app/routes/ventas.py lines 40-46: unit price snapshotted from the
request, subtotal = cantidad * precio_unitario. -/
def mkItemVenta (venta_id : ℤ) (it : ItemVentaCreate) : ItemVenta :=
  { venta_id := venta_id
    producto_id := it.producto_id
    cantidad := it.cantidad
    precio_unitario := it.precio_unitario
    subtotal := (it.cantidad : ℚ) * it.precio_unitario }

/-- Effect of one accepted request line, src/app/routes/ventas.py lines
40-48: insert the items_venta row and decrement the product's stock by the
requested cantidad. -/
def applyLinea (venta_id : ℤ) (it : ItemVentaCreate) (db : DB) : DB :=
  { db with
    items_venta := db.items_venta ++ [mkItemVenta venta_id it]
    productos :=
      updateFirst (porId it.producto_id)
        (fun p => { p with stock := p.stock - it.cantidad }) db.productos }

/-- Per-line loop of crear_venta, src/app/routes/ventas.py lines 30-48, in
submitted order: fetch the product by id; missing → 404 naming the id;
stock < cantidad → 400 naming the product; otherwise insert the line item,
decrement stock and continue on the mutated session state. -/
def procesarItems (venta_id : ℤ) (items : List ItemVentaCreate) (db : DB) :
    Except VentaError DB :=
  match items with
  | [] => .ok db
  | it :: rest =>
    match findFirst (porId it.producto_id) db.productos with
    | none => .error (.productoNoEncontrado it.producto_id)
    | some producto =>
      if producto.stock < it.cantidad then
        .error (.stockInsuficiente producto.nombre)
      else
        procesarItems venta_id rest (applyLinea venta_id it db)

/-- Venta header row built by crear_venta, src/app/routes/ventas.py lines
20-25: the server-computed total, the authenticated user's id, payment method
and notes from the request; flush assigns the generated id. -/
def ventaHeader (db : DB) (usuario_id : ℤ) (venta : VentaCreate) : Venta :=
  { id := db.next_venta_id
    usuario_id := usuario_id
    total := totalVenta venta.items
    metodo_pago := venta.metodo_pago
    observaciones := venta.observaciones }

/-- Session state right after db.add(db_venta); db.flush()
(src/app/routes/ventas.py lines 26-27): the header row is pending in the
transaction and the id generator has advanced. -/
def dbConHeader (db : DB) (usuario_id : ℤ) (venta : VentaCreate) : DB :=
  { db with
    ventas := db.ventas ++ [ventaHeader db usuario_id venta]
    next_venta_id := db.next_venta_id + 1 }

/-- Endpoint crear_venta, src/app/routes/ventas.py lines 11-52: compute the
total from the caller-supplied lines, insert the Venta header (flush assigns
its id), run the per-line loop, then commit; both error paths inside the loop
call db.rollback() before raising, so on error the committed store is the
pre-call one. -/
def crear_venta (db : DB) (usuario_id : ℤ) (venta : VentaCreate) :
    Except VentaError (DB × Venta) :=
  match procesarItems (ventaHeader db usuario_id venta).id venta.items
      (dbConHeader db usuario_id venta) with
  | .error e => .error e
  | .ok db2 => .ok (db2, ventaHeader db usuario_id venta)

/-- Committed store after a crear_venta call: on success the committed session
state, on error the pre-call store (the route rolls back before raising, and
nothing was committed before the raise). -/
def crear_venta_db (db : DB) (usuario_id : ℤ) (venta : VentaCreate) : DB :=
  match crear_venta db usuario_id venta with
  | .error _ => db
  | .ok (db2, _) => db2

/-- Field application of actualizar_producto, src/app/routes/productos.py
lines 240-245: set every provided field, then, when precio_costo was part of
the payload, recompute precio_venta = precio_costo * (1 + margen_porcentaje /
100) (no rounding; ProductoUpdate has no margen_porcentaje field, so that half
of the line-244 condition can never be the trigger). -/
def aplicarUpdate (upd : ProductoUpdate) (p : Producto) : Producto :=
  let p1 : Producto :=
    { p with
      nombre := upd.nombre.getD p.nombre
      precio_costo := upd.precio_costo.getD p.precio_costo
      precio_venta := upd.precio_venta.getD p.precio_venta
      stock := upd.stock.getD p.stock
      categoria := match upd.categoria with
        | some c => some c
        | none => p.categoria
      codigo_barras := match upd.codigo_barras with
        | some c => some c
        | none => p.codigo_barras }
  if upd.precio_costo.isSome then
    { p1 with
      precio_venta := p1.precio_costo * (1 + p1.margen_porcentaje / 100) }
  else p1

/-- Duplicate-barcode guard of actualizar_producto, src/app/routes/productos.py
lines 228-237: only when the request carries a truthy (non-empty) barcode,
reject if some other row (different id) already has that barcode. -/
def codigoBarrasDuplicado (db : DB) (pid : ℤ) (upd : ProductoUpdate) : Bool :=
  match upd.codigo_barras with
  | none => false
  | some cb =>
    cb != "" &&
      (db.productos.any (fun q => q.codigo_barras == some cb && q.id != pid))

/-- Endpoint actualizar_producto, src/app/routes/productos.py lines 214-249:
fetch the product by id (404 if missing), reject a duplicate barcode (400),
apply the provided fields — including an absolute, unchecked set of stock —
and commit. -/
def actualizar_producto (db : DB) (pid : ℤ) (upd : ProductoUpdate) :
    Except ProductoUpdateError (DB × Producto) :=
  match findFirst (porId pid) db.productos with
  | none => .error .productoNoEncontrado
  | some p =>
    if codigoBarrasDuplicado db pid upd then
      .error .codigoBarrasDuplicado
    else
      let p2 := aplicarUpdate upd p
      .ok ({ db with productos := updateFirst (porId pid) (fun _ => p2) db.productos }, p2)

/-- New (unrounded) cost price of one product in the bulk update,
src/app/routes/productos.py line 308:
producto.precio_costo * (1 + request.porcentaje_aumento / 100). -/
def nuevoPrecioCosto (pa : ℚ) (p : Producto) : ℚ :=
  p.precio_costo * (1 + pa / 100)

/-- Loop body of actualizar_precios_masivo, src/app/routes/productos.py lines
300-323, acting on (session state, counter): products whose id does not
resolve among active rows are skipped; a resolving product whose new cost
would be ≤ 0 is skipped (continue); otherwise precio_costo := round(new cost,
2), precio_venta := round(precio_costo * (1 + margen_porcentaje / 100), 2)
— with the freshly rounded cost — and the counter is incremented. -/
def actualizarPreciosStep (pa : ℚ) : DB × ℕ → ℤ → DB × ℕ
  | (db, n), pid =>
    match findFirst (porIdActivo pid) db.productos with
    | none => (db, n)
    | some p =>
      if nuevoPrecioCosto pa p ≤ 0 then (db, n)
      else
        ({ db with
            productos :=
              updateFirst (porIdActivo pid)
                (fun q => { q with
                  precio_costo := round2 (nuevoPrecioCosto pa p)
                  precio_venta := round2 (round2 (nuevoPrecioCosto pa p) *
                    (1 + p.margen_porcentaje / 100)) })
                db.productos },
          n + 1)

/-- Endpoint actualizar_precios_masivo, src/app/routes/productos.py lines
267-338: reject porcentaje_aumento < -50 (400), then porcentaje_aumento > 200
(400), then an empty id list (400), all before touching any product; then fold
the per-product step over producto_ids in order and commit, returning the
number of updated products. -/
def actualizar_precios_masivo (db : DB)
    (req : ActualizacionPreciosMasivaRequest) :
    Except PreciosMasivosError (DB × ℕ) :=
  if req.porcentaje_aumento < -50 then .error .porcentajeMenorA50
  else if 200 < req.porcentaje_aumento then .error .porcentajeMayorA200
  else if req.producto_ids.isEmpty then .error .sinProductos
  else .ok (req.producto_ids.foldl (actualizarPreciosStep req.porcentaje_aumento) (db, 0))

/-- Committed store after an actualizar_precios_masivo call: on a validation
error the pre-call store (the rejection happens before any mutation), on
success the committed session state. -/
def actualizar_precios_masivo_db (db : DB)
    (req : ActualizacionPreciosMasivaRequest) : DB :=
  match actualizar_precios_masivo db req with
  | .error _ => db
  | .ok (db2, _) => db2

/-- Success discriminator for a route result: true exactly when the call did
not raise. -/
def esOk {ε α : Type _} : Except ε α → Bool
  | .ok _ => true
  | .error _ => false

/-- Modelled from the spec: the margin percentage "re-derived from the
product's existing cost/sale-price ratio before this update" (spec §4.2),
i.e. the percentage m with precio_venta = precio_costo * (1 + m / 100).  This
definition follows the spec's words, not the source, and exists only to be
compared against the code's behaviour, which reads the stored
margen_porcentaje field instead. -/
def margenDesdePrecios (p : Producto) : ℚ :=
  (p.precio_venta / p.precio_costo - 1) * 100

/-! ### Helper lemmas about the store primitives -/

theorem updateFirst_of_find?_none {pred : Producto → Bool}
    {f : Producto → Producto} :
    ∀ {l : List Producto}, l.find? pred = none → updateFirst pred f l = l := by
  intro l
  induction l with
  | nil => intro _; rfl
  | cons a l ih =>
    intro h
    rw [List.find?_cons] at h
    by_cases ha : pred a
    · simp [ha] at h
    · simp only [ha] at h
      simp [updateFirst, ha, ih h]

theorem mem_updateFirst_of_find?_some {pred : Producto → Bool}
    {f : Producto → Producto} :
    ∀ {l : List Producto} {p : Producto}, l.find? pred = some p →
      ∀ q ∈ updateFirst pred f l, q ∈ l ∨ q = f p := by
  intro l
  induction l with
  | nil => intro p h; simp at h
  | cons a l ih =>
    intro p h q hq
    by_cases ha : pred a
    · rw [List.find?_cons_of_pos _ ha] at h
      obtain rfl : a = p := by simpa using h
      simp only [updateFirst, if_pos ha] at hq
      rcases List.mem_cons.mp hq with hq | hq
      · right; exact hq
      · left; exact List.mem_cons_of_mem _ hq
    · rw [List.find?_cons_of_neg _ ha] at h
      simp only [updateFirst, if_neg ha] at hq
      rcases List.mem_cons.mp hq with hq | hq
      · left; simp [hq]
      · rcases ih h q hq with h' | h'
        · left; exact List.mem_cons_of_mem _ h'
        · right; exact h'

theorem find?_updateFirst_of_find?_some {pred : Producto → Bool}
    {f : Producto → Producto} (hf : ∀ x, pred (f x) = pred x) :
    ∀ {l : List Producto} {p : Producto}, l.find? pred = some p →
      (updateFirst pred f l).find? pred = some (f p) := by
  intro l
  induction l with
  | nil => intro p h; simp at h
  | cons a l ih =>
    intro p h
    by_cases ha : pred a
    · rw [List.find?_cons_of_pos _ ha] at h
      have hap : a = p := by simpa using h
      have hfa : pred (f a) = true := by rw [hf]; exact ha
      simp only [updateFirst, if_pos ha]
      rw [List.find?_cons_of_pos _ hfa, hap]
    · rw [List.find?_cons_of_neg _ ha] at h
      simp only [updateFirst, if_neg ha]
      rw [List.find?_cons_of_neg _ ha]
      exact ih h

/-- Structural description of a successful run of the per-line loop: the
ventas table is untouched and the items_venta table gains exactly one row per
request line, in order. -/
theorem procesarItems_ok_shape {venta_id : ℤ} :
    ∀ {items : List ItemVentaCreate} {db db2 : DB},
      procesarItems venta_id items db = .ok db2 →
      db2.items_venta = db.items_venta ++ items.map (mkItemVenta venta_id) ∧
      db2.ventas = db.ventas ∧ db2.next_venta_id = db.next_venta_id := by
  intro items
  induction items with
  | nil =>
    intro db db2 h
    obtain rfl : db = db2 := by simpa [procesarItems] using h
    simp
  | cons it rest ih =>
    intro db db2 h
    rw [procesarItems] at h
    cases hf : findFirst (porId it.producto_id) db.productos with
    | none => rw [hf] at h; exact absurd h (by simp)
    | some producto =>
      rw [hf] at h
      simp only [] at h
      by_cases hs : producto.stock < it.cantidad
      · rw [if_pos hs] at h; exact absurd h (by simp)
      · rw [if_neg hs] at h
        obtain ⟨h1, h2, h3⟩ := ih h
        refine ⟨?_, by simpa [applyLinea] using h2, by simpa [applyLinea] using h3⟩
        rw [h1]
        simp [applyLinea]

/-- The per-line loop preserves non-negativity of every stock: a line is only
applied after the check cantidad ≤ stock, and the per-line check reads the
stock already decremented by the earlier lines of the same request. -/
theorem procesarItems_stock_nonneg {venta_id : ℤ} :
    ∀ {items : List ItemVentaCreate} {db db2 : DB},
      (∀ p ∈ db.productos, 0 ≤ p.stock) →
      procesarItems venta_id items db = .ok db2 →
      ∀ p ∈ db2.productos, 0 ≤ p.stock := by
  intro items
  induction items with
  | nil =>
    intro db db2 h0 h
    obtain rfl : db = db2 := by simpa [procesarItems] using h
    exact h0
  | cons it rest ih =>
    intro db db2 h0 h
    rw [procesarItems] at h
    cases hf : findFirst (porId it.producto_id) db.productos with
    | none => rw [hf] at h; exact absurd h (by simp)
    | some producto =>
      rw [hf] at h
      simp only [] at h
      by_cases hs : producto.stock < it.cantidad
      · rw [if_pos hs] at h; exact absurd h (by simp)
      · rw [if_neg hs] at h
        refine ih ?_ h
        intro q hq
        rcases mem_updateFirst_of_find?_some hf q hq with h' | h'
        · exact h0 q h'
        · subst h'
          have : 0 ≤ producto.stock - it.cantidad := by
            have := not_lt.mp hs
            omega
          simpa using this

/-- Unfolding equation of the per-line loop: a line whose product id does not
resolve aborts with the 404 error naming the id. -/
theorem procesarItems_cons_not_found {venta_id : ℤ} {it : ItemVentaCreate}
    {rest : List ItemVentaCreate} {db : DB}
    (hf : findFirst (porId it.producto_id) db.productos = none) :
    procesarItems venta_id (it :: rest) db =
      .error (.productoNoEncontrado it.producto_id) := by
  rw [procesarItems, hf]

/-- Unfolding equation of the per-line loop: a line whose product has
stock < cantidad aborts with the 400 error naming the product. -/
theorem procesarItems_cons_insuficiente {venta_id : ℤ} {it : ItemVentaCreate}
    {rest : List ItemVentaCreate} {db : DB} {p : Producto}
    (hf : findFirst (porId it.producto_id) db.productos = some p)
    (hs : p.stock < it.cantidad) :
    procesarItems venta_id (it :: rest) db =
      .error (.stockInsuficiente p.nombre) := by
  rw [procesarItems, hf]
  simp only []
  rw [if_pos hs]

/-- Unfolding equation of the per-line loop: an accepted line inserts its row,
decrements the stock, and the loop continues on the mutated session state. -/
theorem procesarItems_cons_acepta {venta_id : ℤ} {it : ItemVentaCreate}
    {rest : List ItemVentaCreate} {db : DB} {p : Producto}
    (hf : findFirst (porId it.producto_id) db.productos = some p)
    (hs : ¬ p.stock < it.cantidad) :
    procesarItems venta_id (it :: rest) db =
      procesarItems venta_id rest (applyLinea venta_id it db) := by
  rw [procesarItems, hf]
  simp only []
  rw [if_neg hs]

/-- An error in the per-line loop propagates to crear_venta, and the committed
store is then the pre-call one (rollback). -/
theorem crear_venta_error_of_procesarItems {db : DB} {usuario_id : ℤ}
    {venta : VentaCreate} {e : VentaError}
    (h : procesarItems (ventaHeader db usuario_id venta).id venta.items
        (dbConHeader db usuario_id venta) = .error e) :
    crear_venta db usuario_id venta = .error e ∧
    crear_venta_db db usuario_id venta = db := by
  have h1 : crear_venta db usuario_id venta = .error e := by
    rw [crear_venta, h]
  exact ⟨h1, by rw [crear_venta_db, h1]⟩

/-! ### Claims -/

/-- C1: for every crear_venta request that returns an error, no sale header
row and no line-item rows are persisted, and the stock of every product is
unchanged: the committed store after the call is exactly the store before
it (all-or-nothing over sale insertion and stock decrements). -/
theorem crear_venta_atomico (db : DB) (usuario_id : ℤ) (venta : VentaCreate)
    (e : VentaError) (h : crear_venta db usuario_id venta = .error e) :
    crear_venta_db db usuario_id venta = db ∧
    (crear_venta_db db usuario_id venta).ventas = db.ventas ∧
    (crear_venta_db db usuario_id venta).items_venta = db.items_venta ∧
    (crear_venta_db db usuario_id venta).productos = db.productos := by
  have hdb : crear_venta_db db usuario_id venta = db := by
    rw [crear_venta_db, h]
  exact ⟨hdb, by rw [hdb], by rw [hdb], by rw [hdb]⟩

/-- Witness for C1: a request referencing product id 1 against an empty
product table errors with "Producto 1 no encontrado" and leaves the store
untouched. -/
theorem crear_venta_atomico_witness :
    crear_venta ⟨[], [], [], 1⟩ 7 ⟨[⟨1, 2, 10⟩], "efectivo", none⟩ =
      .error (.productoNoEncontrado 1) ∧
    crear_venta_db ⟨[], [], [], 1⟩ 7 ⟨[⟨1, 2, 10⟩], "efectivo", none⟩ =
      ⟨[], [], [], 1⟩ :=
  ⟨rfl, (crear_venta_atomico ⟨[], [], [], 1⟩ 7 ⟨[⟨1, 2, 10⟩], "efectivo", none⟩
    (.productoNoEncontrado 1) rfl).1⟩

/-- C10: crear_venta on an empty line-item list does not fail: it persists a
sale header with total 0 and no line items, and neither the product table (in
particular every stock) nor the items_venta table changes. -/
theorem crear_venta_items_vacio (db : DB) (usuario_id : ℤ) (m : String)
    (o : Option String) :
    crear_venta db usuario_id ⟨[], m, o⟩ =
      .ok ({ db with
              ventas := db.ventas ++ [⟨db.next_venta_id, usuario_id, 0, m, o⟩]
              next_venta_id := db.next_venta_id + 1 },
        ⟨db.next_venta_id, usuario_id, 0, m, o⟩) ∧
    (crear_venta_db db usuario_id ⟨[], m, o⟩).productos = db.productos ∧
    (crear_venta_db db usuario_id ⟨[], m, o⟩).items_venta = db.items_venta := by
  have h : crear_venta db usuario_id ⟨[], m, o⟩ =
      .ok ({ db with
              ventas := db.ventas ++ [⟨db.next_venta_id, usuario_id, 0, m, o⟩]
              next_venta_id := db.next_venta_id + 1 },
        ⟨db.next_venta_id, usuario_id, 0, m, o⟩) := by
    simp [crear_venta, procesarItems, totalVenta, dbConHeader, ventaHeader]
  refine ⟨h, ?_, ?_⟩ <;> rw [crear_venta_db, h]

/-- C2: for every successfully created sale, the persisted total equals the
sum over the request's line items of cantidad × caller-supplied
precio_unitario (crear_venta never reads a product's precio_venta), each
persisted line item's subtotal equals its cantidad × precio_unitario, and the
sale total equals the sum of its persisted line items' subtotals. -/
theorem crear_venta_total_correcto (db : DB) (usuario_id : ℤ)
    (venta : VentaCreate) (db2 : DB) (v : Venta)
    (h : crear_venta db usuario_id venta = .ok (db2, v)) :
    v.total = totalVenta venta.items ∧
    db2.items_venta = db.items_venta ++ venta.items.map (mkItemVenta v.id) ∧
    (∀ r ∈ venta.items.map (mkItemVenta v.id),
      r.subtotal = (r.cantidad : ℚ) * r.precio_unitario) ∧
    v.total = ((venta.items.map (mkItemVenta v.id)).map (fun r => r.subtotal)).sum := by
  rw [crear_venta] at h
  cases hp : procesarItems (ventaHeader db usuario_id venta).id venta.items
      (dbConHeader db usuario_id venta) with
  | error e => rw [hp] at h; exact absurd h (by simp)
  | ok db3 =>
    rw [hp] at h
    simp only [] at h
    obtain ⟨rfl, rfl⟩ : db3 = db2 ∧ ventaHeader db usuario_id venta = v := by
      simpa using h
    obtain ⟨h1, -, -⟩ := procesarItems_ok_shape hp
    refine ⟨rfl, ?_, ?_, ?_⟩
    · rw [h1]; rfl
    · intro r hr
      obtain ⟨it, -, rfl⟩ := List.mem_map.mp hr
      rfl
    · show totalVenta venta.items = _
      rw [totalVenta, List.map_map]
      rfl

/-- Witness for C2: a one-line sale (2 units at unit price 10 against a
product with stock 5) succeeds; its persisted total is the sum of the
request's cantidad × precio_unitario. -/
theorem crear_venta_total_correcto_witness :
    crear_venta ⟨[⟨1, "a", 4, 6, 5, 10, none, none, true, 50⟩], [], [], 1⟩ 7
        ⟨[⟨1, 2, 10⟩], "efectivo", none⟩ =
      .ok (⟨[⟨1, "a", 4, 6, 3, 10, none, none, true, 50⟩],
            [⟨1, 7, ((2 : ℤ) : ℚ) * 10 + 0, "efectivo", none⟩],
            [⟨1, 1, 2, 10, ((2 : ℤ) : ℚ) * 10⟩], 2⟩,
        ⟨1, 7, ((2 : ℤ) : ℚ) * 10 + 0, "efectivo", none⟩) ∧
    (⟨1, 7, ((2 : ℤ) : ℚ) * 10 + 0, "efectivo", none⟩ : Venta).total =
      totalVenta [⟨1, 2, 10⟩] := by
  have hw : crear_venta ⟨[⟨1, "a", 4, 6, 5, 10, none, none, true, 50⟩], [], [], 1⟩ 7
        ⟨[⟨1, 2, 10⟩], "efectivo", none⟩ =
      .ok (⟨[⟨1, "a", 4, 6, 3, 10, none, none, true, 50⟩],
            [⟨1, 7, ((2 : ℤ) : ℚ) * 10 + 0, "efectivo", none⟩],
            [⟨1, 1, 2, 10, ((2 : ℤ) : ℚ) * 10⟩], 2⟩,
        ⟨1, 7, ((2 : ℤ) : ℚ) * 10 + 0, "efectivo", none⟩) := rfl
  exact ⟨hw, (crear_venta_total_correcto _ 7 _ _ _ hw).1⟩

/-- Counterexample to C3 as stated: there is a completed (committed) operation
after which a product's stock is negative although it was non-negative before.
The administrative update actualizar_producto accepts an absolute stock set
with no lower bound: against a product with stock 5 it commits stock := -5. -/
theorem stock_no_negativo_cex :
    (∀ p ∈ ([⟨1, "x", 4, 6, 5, 10, none, none, true, 50⟩] : List Producto),
      0 ≤ p.stock) ∧
    actualizar_producto ⟨[⟨1, "x", 4, 6, 5, 10, none, none, true, 50⟩], [], [], 1⟩ 1
        { stock := some (-5) } =
      .ok (⟨[⟨1, "x", 4, 6, -5, 10, none, none, true, 50⟩], [], [], 1⟩,
        ⟨1, "x", 4, 6, -5, 10, none, none, true, 50⟩) ∧
    ¬ (∀ p ∈ ([⟨1, "x", 4, 6, -5, 10, none, none, true, 50⟩] : List Producto),
      0 ≤ p.stock) :=
  ⟨by decide, rfl, by decide⟩

/-- C3 (amended): crear_venta preserves stock non-negativity — if every stock
is ≥ 0 before the call, every stock is ≥ 0 after the committed result, whether
the call succeeds or errors — and when the same product appears in two line
items of one request, the second per-line check reads the stock already
decremented by the first line: it aborts with the insufficient-stock error as
soon as stock − cantidad₁ < cantidad₂.  (The claim's "after any completed
operation" does not hold for the administrative update, which can set a
negative stock; see the counterexample.) -/
theorem crear_venta_stock_no_negativo (db : DB) (usuario_id : ℤ)
    (venta : VentaCreate) (h0 : ∀ p ∈ db.productos, 0 ≤ p.stock) :
    (∀ p ∈ (crear_venta_db db usuario_id venta).productos, 0 ≤ p.stock) ∧
    (∀ (it1 it2 : ItemVentaCreate) (m : String) (o : Option String)
        (p : Producto),
      findFirst (porId it1.producto_id) db.productos = some p →
      it2.producto_id = it1.producto_id →
      it1.cantidad ≤ p.stock →
      p.stock - it1.cantidad < it2.cantidad →
      crear_venta db usuario_id ⟨[it1, it2], m, o⟩ =
        .error (.stockInsuficiente p.nombre)) := by
  constructor
  · rw [crear_venta_db]
    cases hc : crear_venta db usuario_id venta with
    | error e => exact h0
    | ok r =>
      obtain ⟨db2, v⟩ := r
      rw [crear_venta] at hc
      cases hp : procesarItems (ventaHeader db usuario_id venta).id venta.items
          (dbConHeader db usuario_id venta) with
      | error e => rw [hp] at hc; exact absurd hc (by simp)
      | ok db3 =>
        rw [hp] at hc
        simp only [] at hc
        obtain ⟨rfl, -⟩ :=
          (by simpa using hc : db3 = db2 ∧ ventaHeader db usuario_id venta = v)
        exact procesarItems_stock_nonneg (by exact h0) hp
  · intro it1 it2 m o p hf h21 hle hlt
    have hf1 : findFirst (porId it1.producto_id)
        (dbConHeader db usuario_id ⟨[it1, it2], m, o⟩).productos = some p := hf
    have hstep := @procesarItems_cons_acepta
      (ventaHeader db usuario_id ⟨[it1, it2], m, o⟩).id it1 [it2]
      (dbConHeader db usuario_id ⟨[it1, it2], m, o⟩) p hf1 (not_lt.mpr hle)
    have hf2 : findFirst (porId it2.producto_id)
        (applyLinea (ventaHeader db usuario_id ⟨[it1, it2], m, o⟩).id it1
          (dbConHeader db usuario_id ⟨[it1, it2], m, o⟩)).productos =
        some { p with stock := p.stock - it1.cantidad } := by
      show (updateFirst (porId it1.producto_id) _ db.productos).find?
          (porId it2.producto_id) = _
      rw [h21]
      exact @find?_updateFirst_of_find?_some (porId it1.producto_id)
        (fun q => { q with stock := q.stock - it1.cantidad })
        (fun x => rfl) db.productos p hf
    have hstep2 := @procesarItems_cons_insuficiente
      (ventaHeader db usuario_id ⟨[it1, it2], m, o⟩).id it2 []
      (applyLinea (ventaHeader db usuario_id ⟨[it1, it2], m, o⟩).id it1
        (dbConHeader db usuario_id ⟨[it1, it2], m, o⟩))
      { p with stock := p.stock - it1.cantidad } hf2 (by simpa using hlt)
    exact (crear_venta_error_of_procesarItems (by rw [hstep, hstep2])).1

/-- Witness for C3 (amended): stock 5, two lines of 3 units each for the same
product — all stocks non-negative beforehand, and the call aborts with the
insufficient-stock error because the second check sees stock 5 − 3 = 2 < 3. -/
theorem crear_venta_stock_no_negativo_witness :
    (∀ p ∈ ([⟨1, "w", 4, 6, 5, 10, none, none, true, 50⟩] : List Producto),
      0 ≤ p.stock) ∧
    crear_venta ⟨[⟨1, "w", 4, 6, 5, 10, none, none, true, 50⟩], [], [], 1⟩ 7
        ⟨[⟨1, 3, 10⟩, ⟨1, 3, 10⟩], "efectivo", none⟩ =
      .error (.stockInsuficiente "w") :=
  ⟨by decide,
    (crear_venta_stock_no_negativo
        ⟨[⟨1, "w", 4, 6, 5, 10, none, none, true, 50⟩], [], [], 1⟩ 7
        ⟨[⟨1, 3, 10⟩, ⟨1, 3, 10⟩], "efectivo", none⟩ (by decide)).2
      ⟨1, 3, 10⟩ ⟨1, 3, 10⟩ "efectivo" none
      ⟨1, "w", 4, 6, 5, 10, none, none, true, 50⟩ rfl rfl (by decide) (by decide)⟩

/-- C4: the per-line loop of crear_venta handles the lines in submitted order;
at each line it errors with 404 naming the missing id when the product does
not resolve, errors with 400 naming the product when its current stock is
below the requested cantidad, and otherwise inserts the line item, decrements
the stock and continues; an error anywhere aborts the whole call and leaves
the committed store untouched. -/
theorem crear_venta_procesa_en_orden (db : DB) (venta_id : ℤ)
    (it : ItemVentaCreate) (rest : List ItemVentaCreate) :
    (findFirst (porId it.producto_id) db.productos = none →
      procesarItems venta_id (it :: rest) db =
        .error (.productoNoEncontrado it.producto_id)) ∧
    (∀ p, findFirst (porId it.producto_id) db.productos = some p →
      p.stock < it.cantidad →
      procesarItems venta_id (it :: rest) db =
        .error (.stockInsuficiente p.nombre)) ∧
    (∀ p, findFirst (porId it.producto_id) db.productos = some p →
      ¬ p.stock < it.cantidad →
      procesarItems venta_id (it :: rest) db =
        procesarItems venta_id rest (applyLinea venta_id it db)) ∧
    (∀ (usuario_id : ℤ) (venta : VentaCreate) (e : VentaError),
      procesarItems (ventaHeader db usuario_id venta).id venta.items
          (dbConHeader db usuario_id venta) = .error e →
      crear_venta db usuario_id venta = .error e ∧
      crear_venta_db db usuario_id venta = db) :=
  ⟨fun hf => procesarItems_cons_not_found hf,
    fun _ hf hs => procesarItems_cons_insuficiente hf hs,
    fun _ hf hs => procesarItems_cons_acepta hf hs,
    fun _ _ _ h => crear_venta_error_of_procesarItems h⟩

/-- Witness for C4: the three per-line outcomes and the abort, each at a
concrete store — a missing id 1, a product with stock 1 against cantidad 2, a
product with stock 5 against cantidad 2, and a crear_venta call aborted by a
missing product. -/
theorem crear_venta_procesa_en_orden_witness :
    procesarItems 1 [⟨1, 2, 10⟩] ⟨[], [], [], 1⟩ =
      .error (.productoNoEncontrado 1) ∧
    procesarItems 1 [⟨1, 2, 10⟩]
        ⟨[⟨1, "b", 4, 6, 1, 10, none, none, true, 50⟩], [], [], 1⟩ =
      .error (.stockInsuficiente "b") ∧
    procesarItems 1 [⟨1, 2, 10⟩]
        ⟨[⟨1, "b", 4, 6, 5, 10, none, none, true, 50⟩], [], [], 1⟩ =
      procesarItems 1 []
        (applyLinea 1 ⟨1, 2, 10⟩
          ⟨[⟨1, "b", 4, 6, 5, 10, none, none, true, 50⟩], [], [], 1⟩) ∧
    crear_venta ⟨[], [], [], 1⟩ 7 ⟨[⟨1, 2, 10⟩], "tarjeta", none⟩ =
      .error (.productoNoEncontrado 1) ∧
    crear_venta_db ⟨[], [], [], 1⟩ 7 ⟨[⟨1, 2, 10⟩], "tarjeta", none⟩ =
      ⟨[], [], [], 1⟩ :=
  ⟨(crear_venta_procesa_en_orden ⟨[], [], [], 1⟩ 1 ⟨1, 2, 10⟩ []).1 rfl,
    (crear_venta_procesa_en_orden
        ⟨[⟨1, "b", 4, 6, 1, 10, none, none, true, 50⟩], [], [], 1⟩ 1
        ⟨1, 2, 10⟩ []).2.1 ⟨1, "b", 4, 6, 1, 10, none, none, true, 50⟩ rfl
      (by decide),
    (crear_venta_procesa_en_orden
        ⟨[⟨1, "b", 4, 6, 5, 10, none, none, true, 50⟩], [], [], 1⟩ 1
        ⟨1, 2, 10⟩ []).2.2.1 ⟨1, "b", 4, 6, 5, 10, none, none, true, 50⟩ rfl
      (by decide),
    ((crear_venta_procesa_en_orden ⟨[], [], [], 1⟩ 1 ⟨1, 2, 10⟩ []).2.2.2 7
        ⟨[⟨1, 2, 10⟩], "tarjeta", none⟩ (.productoNoEncontrado 1) rfl).1,
    ((crear_venta_procesa_en_orden ⟨[], [], [], 1⟩ 1 ⟨1, 2, 10⟩ []).2.2.2 7
        ⟨[⟨1, 2, 10⟩], "tarjeta", none⟩ (.productoNoEncontrado 1) rfl).2⟩

/-- Counterexample to C6 as stated: a request line with cantidad = -3 against
a product with stock 0 is not rejected — crear_venta persists the line item
with its non-positive cantidad and the stock check 0 < -3 never fires; the
decrement 0 - (-3) even raises the stock to 3. -/
theorem crear_venta_cantidad_no_positiva_cex :
    (crear_venta_db ⟨[⟨1, "c", 4, 6, 0, 10, none, none, true, 50⟩], [], [], 1⟩ 7
        ⟨[⟨1, -3, 10⟩], "efectivo", none⟩).items_venta.map (fun r => r.cantidad) =
      [-3] ∧
    (crear_venta_db ⟨[⟨1, "c", 4, 6, 0, 10, none, none, true, 50⟩], [], [], 1⟩ 7
        ⟨[⟨1, -3, 10⟩], "efectivo", none⟩).productos.map (fun p => p.stock) =
      [3] ∧
    ¬ (∀ r ∈ (crear_venta_db
          ⟨[⟨1, "c", 4, 6, 0, 10, none, none, true, 50⟩], [], [], 1⟩ 7
          ⟨[⟨1, -3, 10⟩], "efectivo", none⟩).items_venta, 0 < r.cantidad) :=
  ⟨rfl, rfl, by decide⟩

/-- C6 (amended): neither the ItemVentaCreate schema nor crear_venta places a
lower bound on cantidad: a single-line request whose cantidad is at most the
product's stock — including cantidad ≤ 0, for which the stock check can never
fire against a non-negative stock — succeeds and persists the line item with
the given cantidad. -/
theorem crear_venta_acepta_cantidad_no_positiva (db : DB) (usuario_id : ℤ)
    (it : ItemVentaCreate) (m : String) (o : Option String) (p : Producto)
    (hf : findFirst (porId it.producto_id) db.productos = some p)
    (hle : it.cantidad ≤ p.stock) :
    crear_venta db usuario_id ⟨[it], m, o⟩ =
      .ok (applyLinea (ventaHeader db usuario_id ⟨[it], m, o⟩).id it
          (dbConHeader db usuario_id ⟨[it], m, o⟩),
        ventaHeader db usuario_id ⟨[it], m, o⟩) ∧
    (applyLinea (ventaHeader db usuario_id ⟨[it], m, o⟩).id it
        (dbConHeader db usuario_id ⟨[it], m, o⟩)).items_venta =
      db.items_venta ++ [mkItemVenta db.next_venta_id it] := by
  have hf1 : findFirst (porId it.producto_id)
      (dbConHeader db usuario_id ⟨[it], m, o⟩).productos = some p := hf
  constructor
  · rw [crear_venta, procesarItems_cons_acepta hf1 (not_lt.mpr hle),
      procesarItems]
  · rfl

/-- Witness for C6 (amended): cantidad = -3 against stock 5 is accepted and
persisted. -/
theorem crear_venta_acepta_cantidad_no_positiva_witness :
    ((-3 : ℤ) ≤ (5 : ℤ)) ∧
    crear_venta ⟨[⟨1, "c", 4, 6, 5, 10, none, none, true, 50⟩], [], [], 1⟩ 7
        ⟨[⟨1, -3, 10⟩], "efectivo", none⟩ =
      .ok (applyLinea
          (ventaHeader ⟨[⟨1, "c", 4, 6, 5, 10, none, none, true, 50⟩], [], [], 1⟩
            7 ⟨[⟨1, -3, 10⟩], "efectivo", none⟩).id ⟨1, -3, 10⟩
          (dbConHeader ⟨[⟨1, "c", 4, 6, 5, 10, none, none, true, 50⟩], [], [], 1⟩
            7 ⟨[⟨1, -3, 10⟩], "efectivo", none⟩),
        ventaHeader ⟨[⟨1, "c", 4, 6, 5, 10, none, none, true, 50⟩], [], [], 1⟩
          7 ⟨[⟨1, -3, 10⟩], "efectivo", none⟩) :=
  ⟨by decide,
    (crear_venta_acepta_cantidad_no_positiva
        ⟨[⟨1, "c", 4, 6, 5, 10, none, none, true, 50⟩], [], [], 1⟩ 7
        ⟨1, -3, 10⟩ "efectivo" none ⟨1, "c", 4, 6, 5, 10, none, none, true, 50⟩
        rfl (by decide)).1⟩

/-- Counterexample to C7 as stated: a request referencing a product that
exists but has activo = false, with stock covering the cantidad, does not
error — crear_venta succeeds, because its lookup filters by id only. -/
theorem crear_venta_producto_inactivo_cex :
    (⟨1, "i", 4, 6, 5, 10, none, none, false, 50⟩ : Producto).activo = false ∧
    (2 : ℤ) ≤ (⟨1, "i", 4, 6, 5, 10, none, none, false, 50⟩ : Producto).stock ∧
    crear_venta ⟨[⟨1, "i", 4, 6, 5, 10, none, none, false, 50⟩], [], [], 1⟩ 7
        ⟨[⟨1, 2, 10⟩], "efectivo", none⟩ =
      .ok (⟨[⟨1, "i", 4, 6, 3, 10, none, none, false, 50⟩],
            [⟨1, 7, ((2 : ℤ) : ℚ) * 10 + 0, "efectivo", none⟩],
            [⟨1, 1, 2, 10, ((2 : ℤ) : ℚ) * 10⟩], 2⟩,
        ⟨1, 7, ((2 : ℤ) : ℚ) * 10 + 0, "efectivo", none⟩) :=
  ⟨rfl, by decide, rfl⟩

/-- C7 (amended): crear_venta's product lookup filters by id only and never
consults the activo flag: a single-line request referencing an existing but
inactive product succeeds whenever its stock covers the requested cantidad. -/
theorem crear_venta_ignora_activo (db : DB) (usuario_id : ℤ)
    (it : ItemVentaCreate) (m : String) (o : Option String) (p : Producto)
    (hf : findFirst (porId it.producto_id) db.productos = some p)
    (hinactivo : p.activo = false)
    (hle : it.cantidad ≤ p.stock) :
    crear_venta db usuario_id ⟨[it], m, o⟩ =
      .ok (applyLinea (ventaHeader db usuario_id ⟨[it], m, o⟩).id it
          (dbConHeader db usuario_id ⟨[it], m, o⟩),
        ventaHeader db usuario_id ⟨[it], m, o⟩) := by
  have hf1 : findFirst (porId it.producto_id)
      (dbConHeader db usuario_id ⟨[it], m, o⟩).productos = some p := hf
  rw [crear_venta, procesarItems_cons_acepta hf1 (not_lt.mpr hle),
    procesarItems]

/-- Witness for C7 (amended): an inactive product (activo = false, stock 5)
sold 2 units — the call succeeds. -/
theorem crear_venta_ignora_activo_witness :
    (⟨1, "i", 4, 6, 5, 10, none, none, false, 50⟩ : Producto).activo = false ∧
    crear_venta ⟨[⟨1, "i", 4, 6, 5, 10, none, none, false, 50⟩], [], [], 1⟩ 7
        ⟨[⟨1, 2, 10⟩], "efectivo", none⟩ =
      .ok (applyLinea
          (ventaHeader ⟨[⟨1, "i", 4, 6, 5, 10, none, none, false, 50⟩], [], [], 1⟩
            7 ⟨[⟨1, 2, 10⟩], "efectivo", none⟩).id ⟨1, 2, 10⟩
          (dbConHeader ⟨[⟨1, "i", 4, 6, 5, 10, none, none, false, 50⟩], [], [], 1⟩
            7 ⟨[⟨1, 2, 10⟩], "efectivo", none⟩),
        ventaHeader ⟨[⟨1, "i", 4, 6, 5, 10, none, none, false, 50⟩], [], [], 1⟩
          7 ⟨[⟨1, 2, 10⟩], "efectivo", none⟩) :=
  ⟨rfl,
    crear_venta_ignora_activo
      ⟨[⟨1, "i", 4, 6, 5, 10, none, none, false, 50⟩], [], [], 1⟩ 7
      ⟨1, 2, 10⟩ "efectivo" none ⟨1, "i", 4, 6, 5, 10, none, none, false, 50⟩
      rfl rfl (by decide)⟩

/-- C8: actualizar_precios_masivo rejects with a validation error, before
touching any product, every call whose porcentaje_aumento lies outside the
inclusive range [-50, 200] or whose producto_ids list is empty; the boundary
values -50 and 200 and any value between them with a non-empty selection pass
validation and the call succeeds. -/
theorem actualizar_precios_validacion (db : DB)
    (req : ActualizacionPreciosMasivaRequest) :
    (req.porcentaje_aumento < -50 →
      actualizar_precios_masivo db req = .error .porcentajeMenorA50 ∧
      actualizar_precios_masivo_db db req = db) ∧
    (200 < req.porcentaje_aumento →
      actualizar_precios_masivo db req = .error .porcentajeMayorA200 ∧
      actualizar_precios_masivo_db db req = db) ∧
    (req.producto_ids = [] → -50 ≤ req.porcentaje_aumento →
      req.porcentaje_aumento ≤ 200 →
      actualizar_precios_masivo db req = .error .sinProductos ∧
      actualizar_precios_masivo_db db req = db) ∧
    (-50 ≤ req.porcentaje_aumento → req.porcentaje_aumento ≤ 200 →
      req.producto_ids ≠ [] →
      esOk (actualizar_precios_masivo db req) = true) := by
  refine ⟨?_, ?_, ?_, ?_⟩
  · intro h
    have h1 : actualizar_precios_masivo db req = .error .porcentajeMenorA50 := by
      rw [actualizar_precios_masivo, if_pos h]
    exact ⟨h1, by rw [actualizar_precios_masivo_db, h1]⟩
  · intro h
    have hno : ¬ req.porcentaje_aumento < -50 := by
      apply not_lt.mpr; linarith
    have h1 : actualizar_precios_masivo db req = .error .porcentajeMayorA200 := by
      rw [actualizar_precios_masivo, if_neg hno, if_pos h]
    exact ⟨h1, by rw [actualizar_precios_masivo_db, h1]⟩
  · intro he h50 h200
    have h1 : actualizar_precios_masivo db req = .error .sinProductos := by
      rw [actualizar_precios_masivo, if_neg (not_lt.mpr h50),
        if_neg (not_lt.mpr h200), he]
      rfl
    exact ⟨h1, by rw [actualizar_precios_masivo_db, h1]⟩
  · intro h50 h200 hne
    have hemp : ¬ req.producto_ids.isEmpty = true := by
      intro hh
      exact hne (List.isEmpty_iff.mp hh)
    rw [actualizar_precios_masivo, if_neg (not_lt.mpr h50),
      if_neg (not_lt.mpr h200), if_neg hemp]
    rfl

/-- Witness for C8: -60 is rejected with no products touched, 250 is rejected,
an empty selection is rejected, and the boundary values -50 and 200 are
accepted. -/
theorem actualizar_precios_validacion_witness :
    actualizar_precios_masivo ⟨[], [], [], 1⟩ ⟨[1], -60⟩ =
      .error .porcentajeMenorA50 ∧
    actualizar_precios_masivo_db ⟨[], [], [], 1⟩ ⟨[1], -60⟩ = ⟨[], [], [], 1⟩ ∧
    actualizar_precios_masivo ⟨[], [], [], 1⟩ ⟨[1], 250⟩ =
      .error .porcentajeMayorA200 ∧
    actualizar_precios_masivo ⟨[], [], [], 1⟩ ⟨[], 10⟩ = .error .sinProductos ∧
    esOk (actualizar_precios_masivo ⟨[], [], [], 1⟩ ⟨[1], -50⟩) = true ∧
    esOk (actualizar_precios_masivo ⟨[], [], [], 1⟩ ⟨[1], 200⟩) = true :=
  ⟨((actualizar_precios_validacion ⟨[], [], [], 1⟩ ⟨[1], -60⟩).1 (by decide)).1,
    ((actualizar_precios_validacion ⟨[], [], [], 1⟩ ⟨[1], -60⟩).1 (by decide)).2,
    ((actualizar_precios_validacion ⟨[], [], [], 1⟩ ⟨[1], 250⟩).2.1 (by decide)).1,
    ((actualizar_precios_validacion ⟨[], [], [], 1⟩ ⟨[], 10⟩).2.2.1 rfl
      (by decide) (by decide)).1,
    (actualizar_precios_validacion ⟨[], [], [], 1⟩ ⟨[1], -50⟩).2.2.2
      (by decide) (by decide) (by decide),
    (actualizar_precios_validacion ⟨[], [], [], 1⟩ ⟨[1], 200⟩).2.2.2
      (by decide) (by decide) (by decide)⟩

/-- Fact used by the C9 witness: a new cost computed from a cost price of 0 is
not positive, so the product is skipped. -/
theorem nuevoPrecioCosto_cero_no_positivo :
    nuevoPrecioCosto 10 ⟨1, "z", 0, 0, 5, 10, none, none, true, 0⟩ ≤ 0 := by
  norm_num [nuevoPrecioCosto]

/-- Fact used by the C9 witness: a +10% new cost from a cost price of 100 is
positive, so the product is updated and counted. -/
theorem nuevoPrecioCosto_cien_positivo :
    0 < nuevoPrecioCosto 10 ⟨1, "u", 100, 120, 5, 10, none, none, true, 20⟩ := by
  norm_num [nuevoPrecioCosto]

/-- C9: in the bulk update loop, a product whose id does not resolve among
active rows (missing or inactive) is silently skipped — store and counter
unchanged; a resolving product whose new cost would be ≤ 0 is silently
skipped; every other selected product is updated (both price fields) and
counted; and a call that passes validation never fails. -/
theorem actualizar_precios_omite (pa : ℚ) (db : DB) (n : ℕ) (pid : ℤ) :
    (findFirst (porIdActivo pid) db.productos = none →
      actualizarPreciosStep pa (db, n) pid = (db, n)) ∧
    (∀ p, findFirst (porIdActivo pid) db.productos = some p →
      nuevoPrecioCosto pa p ≤ 0 →
      actualizarPreciosStep pa (db, n) pid = (db, n)) ∧
    (∀ p, findFirst (porIdActivo pid) db.productos = some p →
      0 < nuevoPrecioCosto pa p →
      actualizarPreciosStep pa (db, n) pid =
        ({ db with
            productos :=
              updateFirst (porIdActivo pid)
                (fun q => { q with
                  precio_costo := round2 (nuevoPrecioCosto pa p)
                  precio_venta := round2 (round2 (nuevoPrecioCosto pa p) *
                    (1 + p.margen_porcentaje / 100)) })
                db.productos },
          n + 1)) ∧
    (∀ req : ActualizacionPreciosMasivaRequest, -50 ≤ req.porcentaje_aumento →
      req.porcentaje_aumento ≤ 200 → req.producto_ids ≠ [] →
      esOk (actualizar_precios_masivo db req) = true) := by
  refine ⟨?_, ?_, ?_, ?_⟩
  · intro hf
    rw [actualizarPreciosStep, hf]
  · intro p hf hle
    rw [actualizarPreciosStep, hf]
    simp only []
    rw [if_pos hle]
  · intro p hf hpos
    rw [actualizarPreciosStep, hf]
    simp only []
    rw [if_neg (not_le.mpr hpos)]
  · intro req h50 h200 hne
    have hemp : ¬ req.producto_ids.isEmpty = true := by
      intro hh
      exact hne (List.isEmpty_iff.mp hh)
    rw [actualizar_precios_masivo, if_neg (not_lt.mpr h50),
      if_neg (not_lt.mpr h200), if_neg hemp]
    rfl

/-- Witness for C9: a missing id, an inactive product, and a cost-0 product
are each skipped with counter unchanged; a cost-100 product under +10% is
updated and counted; a validated call on this store succeeds. -/
theorem actualizar_precios_omite_witness :
    actualizarPreciosStep 10 (⟨[], [], [], 1⟩, 0) 1 = (⟨[], [], [], 1⟩, 0) ∧
    actualizarPreciosStep 10
        (⟨[⟨1, "i", 4, 6, 5, 10, none, none, false, 50⟩], [], [], 1⟩, 0) 1 =
      (⟨[⟨1, "i", 4, 6, 5, 10, none, none, false, 50⟩], [], [], 1⟩, 0) ∧
    actualizarPreciosStep 10
        (⟨[⟨1, "z", 0, 0, 5, 10, none, none, true, 0⟩], [], [], 1⟩, 0) 1 =
      (⟨[⟨1, "z", 0, 0, 5, 10, none, none, true, 0⟩], [], [], 1⟩, 0) ∧
    actualizarPreciosStep 10
        (⟨[⟨1, "u", 100, 120, 5, 10, none, none, true, 20⟩], [], [], 1⟩, 0) 1 =
      (⟨[⟨1, "u",
          round2 (nuevoPrecioCosto 10 ⟨1, "u", 100, 120, 5, 10, none, none, true, 20⟩),
          round2 (round2 (nuevoPrecioCosto 10 ⟨1, "u", 100, 120, 5, 10, none, none, true, 20⟩) *
            (1 + 20 / 100)),
          5, 10, none, none, true, 20⟩], [], [], 1⟩, 1) ∧
    esOk (actualizar_precios_masivo
        ⟨[⟨1, "u", 100, 120, 5, 10, none, none, true, 20⟩], [], [], 1⟩
        ⟨[1], 10⟩) = true :=
  ⟨(actualizar_precios_omite 10 ⟨[], [], [], 1⟩ 0 1).1 rfl,
    (actualizar_precios_omite 10
        ⟨[⟨1, "i", 4, 6, 5, 10, none, none, false, 50⟩], [], [], 1⟩ 0 1).1 rfl,
    (actualizar_precios_omite 10
        ⟨[⟨1, "z", 0, 0, 5, 10, none, none, true, 0⟩], [], [], 1⟩ 0 1).2.1
      ⟨1, "z", 0, 0, 5, 10, none, none, true, 0⟩ rfl
      nuevoPrecioCosto_cero_no_positivo,
    (actualizar_precios_omite 10
        ⟨[⟨1, "u", 100, 120, 5, 10, none, none, true, 20⟩], [], [], 1⟩ 0 1).2.2.1
      ⟨1, "u", 100, 120, 5, 10, none, none, true, 20⟩ rfl
      nuevoPrecioCosto_cien_positivo,
    (actualizar_precios_omite 10
        ⟨[⟨1, "u", 100, 120, 5, 10, none, none, true, 20⟩], [], [], 1⟩ 0 1).2.2.2
      ⟨[1], 10⟩ (by decide) (by decide) (by decide)⟩

/-- Counterexample to C5 as stated: against a product whose stored
margen_porcentaje (20) has drifted from its cost/sale-price ratio (cost 100,
sale 150, ratio margin 50%), a +10% bulk update writes sale price
round(110 × 1.20, 2) = 132 — computed from the stored margin — whereas the
claim's formula, with the margin re-derived from the existing cost/sale-price
ratio, would give round(110 × 1.50, 2) = 165. -/
theorem actualizar_precios_margen_ratio_cex :
    actualizar_precios_masivo
        ⟨[⟨1, "r", 100, 150, 3, 10, none, none, true, 20⟩], [], [], 1⟩
        ⟨[1], 10⟩ =
      .ok (⟨[⟨1, "r", 110, 132, 3, 10, none, none, true, 20⟩], [], [], 1⟩, 1) ∧
    round2 (round2 (nuevoPrecioCosto 10
        ⟨1, "r", 100, 150, 3, 10, none, none, true, 20⟩) *
      (1 + margenDesdePrecios ⟨1, "r", 100, 150, 3, 10, none, none, true, 20⟩ /
        100)) = 165 ∧
    ((132 : ℚ) ≠ 165) := by
  refine ⟨?_, ?_, by norm_num⟩
  · rw [actualizar_precios_masivo]
    norm_num [actualizarPreciosStep, findFirst, List.find?, porIdActivo,
      updateFirst, nuevoPrecioCosto, round2, roundHalfEven]
  · norm_num [nuevoPrecioCosto, margenDesdePrecios, round2, roundHalfEven]

/-- Fact used by the C5 witness: the +10% new cost of the drifted product is
positive. -/
theorem nuevoPrecioCosto_drift_positivo :
    0 < nuevoPrecioCosto 10 ⟨1, "r", 100, 150, 3, 10, none, none, true, 20⟩ := by
  norm_num [nuevoPrecioCosto]

/-- C5 (amended): for every product updated by the bulk price update, the new
sale price equals round(newCost × (1 + margen_porcentaje / 100), 2) where
margen_porcentaje is the product's stored margin field read at update time —
not a margin re-derived from the existing cost/sale-price ratio — and the new
cost is round(cost × (1 + porcentaje_aumento / 100), 2); on the spec's
concrete case (cost 100, sale 120, stored margin 20, +10%) this yields cost
110.00, sale 132.00, with the product counted. -/
theorem actualizar_precios_margen_almacenado (pa : ℚ) (db : DB) (n : ℕ)
    (pid : ℤ) (p : Producto)
    (hf : findFirst (porIdActivo pid) db.productos = some p)
    (hpos : 0 < nuevoPrecioCosto pa p) :
    actualizarPreciosStep pa (db, n) pid =
      ({ db with
          productos :=
            updateFirst (porIdActivo pid)
              (fun q => { q with
                precio_costo := round2 (nuevoPrecioCosto pa p)
                precio_venta := round2 (round2 (nuevoPrecioCosto pa p) *
                  (1 + p.margen_porcentaje / 100)) })
              db.productos },
        n + 1) ∧
    actualizar_precios_masivo
        ⟨[⟨1, "e", 100, 120, 0, 10, none, none, true, 20⟩], [], [], 1⟩
        ⟨[1], 10⟩ =
      .ok (⟨[⟨1, "e", 110, 132, 0, 10, none, none, true, 20⟩], [], [], 1⟩, 1) := by
  constructor
  · rw [actualizarPreciosStep, hf]
    simp only []
    rw [if_neg (not_le.mpr hpos)]
  · rw [actualizar_precios_masivo]
    norm_num [actualizarPreciosStep, findFirst, List.find?, porIdActivo,
      updateFirst, nuevoPrecioCosto, round2, roundHalfEven]

/-- Witness for C5 (amended): the drifted product (stored margin 20, ratio
margin 50%) is updated using the stored margin. -/
theorem actualizar_precios_margen_almacenado_witness :
    actualizarPreciosStep 10
        (⟨[⟨1, "r", 100, 150, 3, 10, none, none, true, 20⟩], [], [], 1⟩, 0) 1 =
      (⟨[⟨1, "r",
          round2 (nuevoPrecioCosto 10
            ⟨1, "r", 100, 150, 3, 10, none, none, true, 20⟩),
          round2 (round2 (nuevoPrecioCosto 10
              ⟨1, "r", 100, 150, 3, 10, none, none, true, 20⟩) *
            (1 + 20 / 100)),
          3, 10, none, none, true, 20⟩], [], [], 1⟩, 1) :=
  (actualizar_precios_margen_almacenado 10
      ⟨[⟨1, "r", 100, 150, 3, 10, none, none, true, 20⟩], [], [], 1⟩ 0 1
      ⟨1, "r", 100, 150, 3, 10, none, none, true, 20⟩ rfl
      nuevoPrecioCosto_drift_positivo).1

end DonCharo
